import Mathlib

/-
Verification of the map synchronization component in
src/src/components/MapView.jsx against its specification.

The component keeps a list of property records (React state `items`),
derives a GeoJSON feature collection from it (`geojson`), pushes it to a
map rendering surface, and updates it from three fetch paths: the initial
load (`loadAll`), a polygon search (`runSearch`) and a clear (`clearSearch`).
Numbers that appear in records are modelled as `Int` (the claims never
depend on fractional values); JS `undefined`/absence is modelled with
`Option`; a JS exception escaping an `async` function is modelled with
`Except`.
-/

namespace MapView

/-- A WGS84 point, the `location` of a property record. -/
structure GeoPoint where
  lon : Int
  lat : Int
deriving DecidableEq

/-- A property record as delivered by the backend: `{ id, title, price, location }`,
with `price` possibly absent (MapView.jsx lines 78-86 read exactly these fields). -/
structure PropertyRecord where
  id : String
  title : String
  price : Option Int
  location : GeoPoint
deriving DecidableEq

/-- The value stored under `price` in a derived feature: `p.price ?? ''`
yields either the number or the empty string (MapView.jsx line 83). -/
inductive PriceVal where
  | num (n : Int)
  | emptyStr
deriving DecidableEq

/-- A derived GeoJSON feature: `{ properties: { id, title, price }, geometry }`. -/
structure Feature where
  id : String
  title : String
  price : PriceVal
  geometry : GeoPoint
deriving DecidableEq

/-- A GeoJSON feature collection, the shape pushed to the map source. -/
structure FeatureCollection where
  features : List Feature
deriving DecidableEq

/-- Embeds the per-record mapping inside the `geojson` useMemo
(MapView.jsx lines 78-86): id and title are copied, `price` is
`p.price ?? ''`, and the geometry is the record location. -/
def toFeature (p : PropertyRecord) : Feature :=
  { id := p.id
    title := p.title
    price := match p.price with
      | some n => PriceVal.num n
      | none => PriceVal.emptyStr
    geometry := p.location }

/-- Embeds the `geojson` useMemo (MapView.jsx lines 76-87):
`(items || []).map(...)` over the current items. `items` is a React state
initialised to `[]`, so it is a plain list here. -/
def geojson (items : List PropertyRecord) : FeatureCollection :=
  { features := items.map toFeature }

/-- Failure mode of one fetch as seen by the calling code: `network` models
`fetch` rejecting (transport failure), `decode` models `res.json()` throwing
(body is not valid JSON). -/
inductive FetchError where
  | network
  | decode
deriving DecidableEq

/-- A successfully parsed JSON response body. `items = none` models a body
that parsed as JSON but has no `items` array, so that `data.items || []`
evaluates to `[]` (MapView.jsx lines 180, 202, 210). -/
structure FetchResponse where
  items : Option (List PropertyRecord)
deriving DecidableEq

/-- Result of one controller operation: the items state afterwards, the
exception escaping the operation if any, and whether `console.error` ran. -/
structure OpOutcome where
  items : List PropertyRecord
  escaped : Option FetchError
  logged : Bool
deriving DecidableEq

/-- Embeds `loadAll` (MapView.jsx lines 176-185): the whole fetch-decode-set
sequence is wrapped in try/catch; on success `setItems(data.items || [])`,
on any failure `console.error(e)` and the state is left unchanged. The
fetch outcome is an environment input. -/
def loadAll (st : List PropertyRecord) (outcome : Except FetchError FetchResponse) :
    OpOutcome :=
  match outcome with
  | Except.ok r => { items := r.items.getD [], escaped := none, logged := false }
  | Except.error _ => { items := st, escaped := none, logged := true }

/-- Geometry of a feature held by the drawing tool: `{ type, coordinates }`
as read at MapView.jsx lines 193 and 199. -/
structure DrawGeometry where
  type : String
  coordinates : List (List (Int × Int))
deriving DecidableEq

/-- A feature returned by `draw.getAll().features`. -/
structure DrawFeature where
  geometry : DrawGeometry
deriving DecidableEq

/-- The POST body sent by `runSearch`: the coordinates of the chosen polygon
(the accompanying `type` field is the constant string Polygon, line 199). -/
structure SearchRequest where
  coordinates : List (List (Int × Int))
deriving DecidableEq

/-- Embeds `runSearch` (MapView.jsx lines 189-204): take the first drawn
feature whose geometry type is Polygon (`f.features.find(...)`); if none,
return before any request. Otherwise issue the POST (first component of the
result records the request issued, `none` meaning no network call) and apply
the response inside try/catch exactly as `loadAll` does. No property of the
polygon other than its geometry type is inspected. -/
def runSearch (drawn : List DrawFeature) (st : List PropertyRecord)
    (outcome : Except FetchError FetchResponse) :
    Option SearchRequest × OpOutcome :=
  match drawn.find? (fun g => g.geometry.type == "Polygon") with
  | none => (none, { items := st, escaped := none, logged := false })
  | some poly =>
      (some { coordinates := poly.geometry.coordinates },
       match outcome with
       | Except.ok r => { items := r.items.getD [], escaped := none, logged := false }
       | Except.error _ => { items := st, escaped := none, logged := true })

/-- Embeds `clearSearch` (MapView.jsx lines 206-211): after
`drawRef.current?.deleteAll()` it awaits the fetch and `res.json()` with NO
try/catch, so a rejection escapes the async function; `setItems` is only
reached on success. -/
def clearSearch (st : List PropertyRecord) (outcome : Except FetchError FetchResponse) :
    OpOutcome :=
  match outcome with
  | Except.ok r => { items := r.items.getD [], escaped := none, logged := false }
  | Except.error e => { items := st, escaped := some e, logged := false }

/-- Embeds the application of one fetch completion to the items state.
Every fetch path applies its response through `setItems(data.items || [])`
and leaves the state untouched on failure (caught in load and search,
thrown before `setItems` in clear). The `Nat` tag is the issue index of the
fetch; the handler has no access to it, which the definition reflects by
ignoring it. -/
def applyCompletion (st : List PropertyRecord)
    (c : Nat × Except FetchError FetchResponse) : List PropertyRecord :=
  match c.2 with
  | Except.ok r => r.items.getD []
  | Except.error _ => st

/-- Embeds the items state after a sequence of fetch completions, given in
COMPLETION order (React state updates are applied in the order the
completion handlers run on the single JS thread). -/
def settle (st : List PropertyRecord)
    (cs : List (Nat × Except FetchError FetchResponse)) : List PropertyRecord :=
  cs.foldl applyCompletion st

/-- State of the map rendering surface: `none` before `addSource` has run
(the properties source does not exist yet), `some c` once the source holds
collection `c`. -/
structure SurfaceState where
  source : Option FeatureCollection
deriving DecidableEq

/-- Events acting on the surface: `mapLoad` is the map load event firing
(the handler at MapView.jsx lines 128-139 runs `addSource`), and
`itemsChanged g` is the `[geojson]` effect (lines 167-172) running with the
new derived collection `g`. -/
inductive Ev where
  | mapLoad
  | itemsChanged (g : FeatureCollection)
deriving DecidableEq

/-- Embeds one surface transition. `mountGeojson` is the `geojson` value
captured by the mount effect closure: the mount effect has an empty
dependency list (line 164), so the load handler at line 131 passes the
collection from the INITIAL render to `addSource`, not the current one.
The `[geojson]` effect returns without doing anything when the style is not
loaded or the source is absent (lines 169-171), both of which hold exactly
while the load handler has not run; otherwise it calls `setData`. -/
def stepSurface (mountGeojson : FeatureCollection) (s : SurfaceState) :
    Ev → SurfaceState
  | Ev.mapLoad => { source := some mountGeojson }
  | Ev.itemsChanged g =>
      match s.source with
      | some _ => { source := some g }
      | none => s

/-- Embeds the surface state after a sequence of events from an initial state. -/
def runSurface (mountGeojson : FeatureCollection) (s : SurfaceState)
    (evs : List Ev) : SurfaceState :=
  evs.foldl (stepSurface mountGeojson) s

/-- A feature returned by `queryRenderedFeatures` on the clusters layer:
`properties.cluster_id` (absent when the feature is not a cluster) and its
coordinates. -/
structure ClusterFeature where
  cluster_id : Option Nat
  coordinates : Int × Int
deriving DecidableEq

/-- A JS runtime exception: reading a property of `undefined` throws a
TypeError. -/
inductive JsError where
  | typeError
deriving DecidableEq

/-- The viewport command `map.easeTo({ center, zoom })`. -/
structure EaseCmd where
  center : Int × Int
  zoom : Int
deriving DecidableEq

/-- Embeds the cluster click handler (MapView.jsx lines 141-148). The
`queryRenderedFeatures` result and the `getClusterExpansionZoom` collaborator
are environment inputs. `features[0].properties.cluster_id` is read without
any guard: on an empty query result this throws a TypeError that escapes the
handler. The expansion zoom callback returns to `if (err) return`, a no-op,
or to `easeTo` with the first feature coordinates and the obtained zoom. -/
def onClusterClick (features : List ClusterFeature)
    (getClusterExpansionZoom : Option Nat → Except Unit Int) :
    Except JsError (Option EaseCmd) :=
  match features with
  | [] => Except.error JsError.typeError
  | f :: _ =>
      match getClusterExpansionZoom f.cluster_id with
      | Except.error _ => Except.ok none
      | Except.ok z => Except.ok (some { center := f.coordinates, zoom := z })

/-- An externally visible effect of component startup. -/
inductive Effect where
  | configError (msg : String)
  | fetchReq (url : String)
deriving DecidableEq

/-- Tests whether an effect is a surfaced configuration error. -/
def Effect.isConfigError : Effect → Bool
  | Effect.configError _ => true
  | _ => false

/-- Embeds JS template literal interpolation of a possibly-undefined value:
interpolating `undefined` produces the literal text "undefined". -/
def jsTemplateConcat (backend : Option String) (path : String) : String :=
  (match backend with
   | some s => s
   | none => "undefined") ++ path

/-- Embeds the startup behaviour of the component with respect to the
backend configuration (MapView.jsx lines 74 and 174-186): `backend` is read
from the environment with no validation anywhere in the component, and the
mount effect unconditionally issues the initial fetch with the interpolated
URL. No branch in the component inspects whether `backend` is present. -/
def mountEffects (backend : Option String) : List Effect :=
  [Effect.fetchReq (jsTemplateConcat backend "/api/properties")]

/-- Record with id "1", title "A", price 100, at Point(0,0) (spec scenario). -/
def recA : PropertyRecord :=
  { id := "1", title := "A", price := some 100, location := { lon := 0, lat := 0 } }

/-- Record with id "2", title "B", absent price, at Point(1,1) (spec scenario). -/
def recB : PropertyRecord :=
  { id := "2", title := "B", price := none, location := { lon := 1, lat := 1 } }

/-- Record with id "x" (first completing search response of the race scenario). -/
def recX : PropertyRecord :=
  { id := "x", title := "X", price := none, location := { lon := 0, lat := 0 } }

/-- Record with id "y" (last completing search response of the race scenario). -/
def recY : PropertyRecord :=
  { id := "y", title := "Y", price := none, location := { lon := 0, lat := 0 } }

/-- A closed square drawn polygon feature. -/
def polyFeat : DrawFeature :=
  { geometry := { type := "Polygon"
                  coordinates := [[(0, 0), (2, 0), (2, 2), (0, 2), (0, 0)]] } }

/-- A drawn feature that is not a polygon. -/
def lineFeat : DrawFeature :=
  { geometry := { type := "LineString", coordinates := [[(0, 0), (1, 1)]] } }

/-- A degenerate drawn polygon: two distinct vertices, ring not closed. -/
def openPolyFeat : DrawFeature :=
  { geometry := { type := "Polygon", coordinates := [[(0, 0), (1, 1)]] } }

/-- An expansion zoom collaborator that fails on every cluster id. -/
def zoomErr : Option Nat → Except Unit Int := fun _ => Except.error ()

/-- A clicked feature that is not actually a cluster: no cluster id. -/
def nonClusterFeat : ClusterFeature := { cluster_id := none, coordinates := (3, 4) }

end MapView

namespace MapView

/-- C1: result application is last-write-wins by completion order, not by
issue order. For any initial items state and any sequence of fetch
completions listed in completion order (each tagged with its issue index,
which the state update cannot observe), if the last-completing fetch
succeeded with response `r`, the final items state is exactly the items of
`r` (normalised by `data.items || []`), regardless of every earlier
completion and of all issue tags. -/
theorem c1_last_completed_wins (st : List PropertyRecord)
    (cs : List (Nat × Except FetchError FetchResponse))
    (g : Nat) (r : FetchResponse)
    (h : cs.getLast? = some (g, Except.ok r)) :
    settle st cs = r.items.getD [] := by
  induction cs generalizing st with
  | nil => simp at h
  | cons c cs ih =>
    cases cs with
    | nil =>
      have hc : c = (g, Except.ok r) := by simpa using h
      subst hc
      simp [settle, applyCompletion]
    | cons d ds =>
      have h2 : (d :: ds).getLast? = some (g, Except.ok r) := by
        simpa [List.getLast?_cons_cons] using h
      simpa [settle] using ih (applyCompletion st c) h2

/-- C1 witness: the spec race scenario. Q1 is issued first (tag 0), Q2
second (tag 1); Q2 completes first with the record of id "x", Q1 completes
second with the record of id "y"; the final dataset is the id "y" singleton. -/
theorem c1_last_completed_wins_witness :
    settle [] [(1, Except.ok { items := some [recX] }),
               (0, Except.ok { items := some [recY] })] = [recY] := by
  simpa using c1_last_completed_wins []
    [(1, Except.ok { items := some [recX] }), (0, Except.ok { items := some [recY] })]
    0 { items := some [recY] } (by rfl)

/-- C2 (code bug evaluation): `clearSearch` at a failing fetch. Unlike
`loadAll` and `runSearch`, `clearSearch` wraps nothing in try/catch: at a
transport failure the rejection escapes the operation, nothing is logged by
the operation, and the dataset keeps its prior value only because
`setItems` is never reached. This contradicts the claim that every
fetch-issuing operation catches and logs its errors without propagating. -/
theorem c2_clear_search_error_escapes :
    clearSearch [recA] (Except.error FetchError.network)
      = { items := [recA], escaped := some FetchError.network, logged := false } := by
  rfl

/-- C3: the derivation produces exactly one feature per record, in order;
each feature preserves id and title, uses the record location as geometry,
and maps an absent price to the empty string (and a present price to
itself). Stated pointwise: for every index holding record `p`, the derived
collection has the same length as the dataset and holds at that index a
feature with the stated fields. -/
theorem c3_derive_faithful (items : List PropertyRecord) (i : Nat) (p : PropertyRecord)
    (hp : items.get? i = some p) :
    (geojson items).features.length = items.length ∧
    ∃ f, (geojson items).features.get? i = some f ∧
      f.id = p.id ∧ f.title = p.title ∧ f.geometry = p.location ∧
      (p.price = none → f.price = PriceVal.emptyStr) ∧
      (∀ n, p.price = some n → f.price = PriceVal.num n) := by
  refine ⟨by simp [geojson], toFeature p, ?_, rfl, rfl, rfl, ?_, ?_⟩
  · have hp2 : items[i]? = some p := by
      simpa [List.get?_eq_getElem?] using hp
    simp [geojson, List.get?_eq_getElem?, List.getElem?_map, hp2]
  · intro h
    simp [toFeature, h]
  · intro n h
    simp [toFeature, h]

/-- C3 witness: the spec scenario dataset of records "1" and "2"; the
feature at index 1 carries id "2", title "B", the record location, and the
empty-string price. -/
theorem c3_derive_faithful_witness :
    (geojson [recA, recB]).features.length = [recA, recB].length ∧
    ∃ f, (geojson [recA, recB]).features.get? 1 = some f ∧
      f.id = recB.id ∧ f.title = recB.title ∧ f.geometry = recB.location ∧
      (recB.price = none → f.price = PriceVal.emptyStr) ∧
      (∀ n, recB.price = some n → f.price = PriceVal.num n) :=
  c3_derive_faithful [recA, recB] 1 recB (by rfl)

/-- C4 (code bug evaluation): a derived-collection update that happens
before the map load event is silently dropped. Starting from a surface with
no source, the collection changes to the nonempty `geojson [recA]` (the
effect runs while the style is not loaded and returns), then the load event
fires: the surface ends up holding the mount-time collection `geojson []`,
not the updated one, and the two differ. This contradicts the claim that
such an update is deferred and applied once initialization completes. -/
theorem c4_preload_update_dropped :
    runSurface (geojson []) { source := none }
        [Ev.itemsChanged (geojson [recA]), Ev.mapLoad]
      = { source := some (geojson []) } ∧
    geojson [recA] ≠ geojson [] := by
  exact ⟨rfl, by decide⟩

/-- C5 counterexample: an open, degenerate polygon (two distinct vertices,
ring not closed) drawn alone; `runSearch` issues the backend request with
its coordinates, where the claim requires the fetch to be rejected with no
network call. -/
theorem c5_degenerate_polygon_sent :
    (runSearch [openPolyFeat] [] (Except.ok { items := some [] })).fst
      = some { coordinates := [[(0, 0), (1, 1)]] } := by
  rfl

/-- C5 amended: `runSearch` performs no polygon validation at all. For
every coordinate list whatsoever, including open rings and rings with fewer
than 3 distinct vertices, a drawn feature of geometry type Polygon causes
the request to be issued with exactly those coordinates; the backend is not
called only when no Polygon-typed geometry is drawn. -/
theorem c5_no_validation (coords : List (List (Int × Int)))
    (st : List PropertyRecord) (o : Except FetchError FetchResponse) :
    (runSearch [{ geometry := { type := "Polygon", coordinates := coords } }] st o).fst
      = some { coordinates := coords } ∧
    (runSearch [] st o).fst = none := by
  exact ⟨rfl, rfl⟩

/-- C6 counterexample: a response that parses as JSON but lacks the
expected `items` array (so it cannot be parsed into the shape
`{ items: PropertyRecord[] }`). `loadAll` then runs
`setItems(data.items || [])` and replaces the nonempty prior dataset with
the empty list, where the claim requires the prior dataset to be retained. -/
theorem c6_shape_mismatch_clobbers :
    (loadAll [recA] (Except.ok { items := none })).items = [] ∧
    ([recA] : List PropertyRecord) ≠ [] := by
  exact ⟨rfl, by decide⟩

/-- C6 amended: a response body that is not valid JSON leaves the prior
dataset in place on every path (`res.json()` throws: the exception is
caught in load and search and escapes clear before `setItems` runs); but a
response that parses to JSON without an `items` array replaces the dataset
with the empty list on every path that reaches `setItems`. -/
theorem c6_decode_split (st : List PropertyRecord) :
    (loadAll st (Except.error FetchError.decode)).items = st ∧
    ((runSearch [polyFeat] st (Except.error FetchError.decode)).snd).items = st ∧
    (clearSearch st (Except.error FetchError.decode)).items = st ∧
    (clearSearch st (Except.error FetchError.decode)).escaped = some FetchError.decode ∧
    (loadAll st (Except.ok { items := none })).items = [] ∧
    ((runSearch [polyFeat] st (Except.ok { items := none })).snd).items = [] ∧
    (clearSearch st (Except.ok { items := none })).items = [] := by
  exact ⟨rfl, rfl, rfl, rfl, rfl, rfl, rfl⟩

/-- C7: invoking search while the drawing tool holds no Polygon-typed
geometry is a silent no-op: no request is issued, the dataset is unchanged,
nothing escapes and nothing is logged. -/
theorem c7_no_polygon_noop (drawn : List DrawFeature) (st : List PropertyRecord)
    (o : Except FetchError FetchResponse)
    (h : ∀ g ∈ drawn, g.geometry.type ≠ "Polygon") :
    runSearch drawn st o = (none, { items := st, escaped := none, logged := false }) := by
  have hf : drawn.find? (fun g => g.geometry.type == "Polygon") = none := by
    rw [List.find?_eq_none]
    intro g hg
    simpa using h g hg
  simp [runSearch, hf]

/-- C7 witness: a drawing tool holding only a line string; search with a
nonempty prior dataset issues no request and leaves it unchanged. -/
theorem c7_no_polygon_noop_witness :
    (∀ g ∈ [lineFeat], g.geometry.type ≠ "Polygon") ∧
    runSearch [lineFeat] [recA] (Except.ok { items := some [recB] })
      = (none, { items := [recA], escaped := none, logged := false }) :=
  ⟨by decide, c7_no_polygon_noop [lineFeat] [recA] (Except.ok { items := some [recB] })
    (by decide)⟩

/-- C8 counterexample: a cluster click for which `queryRenderedFeatures`
returns no features. The handler reads `features[0].properties` without a
guard, so a TypeError escapes, where the claim requires a no-op with no
escaping exception. -/
theorem c8_empty_query_throws :
    onClusterClick [] zoomErr = Except.error JsError.typeError := by
  rfl

/-- C8 amended: when the click yields at least one rendered cluster feature
and the expansion-zoom lookup for that feature fails (including when the
feature is not actually a cluster and so has no cluster id), the handler is
a no-op: no exception escapes and no viewport command is issued. When the
query yields no features at all, the unguarded first-element access throws. -/
theorem c8_lookup_failure_noop (f : ClusterFeature) (fs : List ClusterFeature)
    (zf : Option Nat → Except Unit Int)
    (h : zf f.cluster_id = Except.error ()) :
    onClusterClick (f :: fs) zf = Except.ok none := by
  simp [onClusterClick, h]

/-- C8 witness: a clicked feature that is not actually a cluster, with a
collaborator that fails the expansion-zoom lookup; the handler returns
normally with no command. -/
theorem c8_lookup_failure_noop_witness :
    zoomErr nonClusterFeat.cluster_id = Except.error () ∧
    onClusterClick [nonClusterFeat] zoomErr = Except.ok none :=
  ⟨rfl, c8_lookup_failure_noop nonClusterFeat [] zoomErr rfl⟩

/-- C9 counterexample: with the backend base URL absent, startup surfaces
no configuration error at all; the component instead issues the initial
fetch with the text "undefined" interpolated into the URL, so the absence
can only surface later as a runtime fetch failure. This contradicts the
claim that the absence is surfaced as a configuration error at startup. -/
theorem c9_absent_backend_not_checked :
    mountEffects none = [Effect.fetchReq "undefined/api/properties"] ∧
    (mountEffects none).filter Effect.isConfigError = [] := by
  exact ⟨rfl, rfl⟩

/-- C9 amended: the component never surfaces a configuration error for any
backend value; when the value is absent, mounting issues the initial fetch
against the URL built from the literal text "undefined", deferring the
failure to runtime fetches. -/
theorem c9_no_startup_check (backend : Option String) :
    (mountEffects backend).filter Effect.isConfigError = [] ∧
    mountEffects none = [Effect.fetchReq "undefined/api/properties"] := by
  exact ⟨rfl, rfl⟩

/-- C10: when the drawn features contain at least one Polygon-typed
geometry, the search request uses the coordinates of the FIRST such feature
in the drawn order, ignoring every feature before it (non-polygons) and
every feature after it. -/
theorem c10_first_polygon_used (pre post : List DrawFeature) (poly : DrawFeature)
    (st : List PropertyRecord) (o : Except FetchError FetchResponse)
    (hpoly : poly.geometry.type = "Polygon")
    (hpre : ∀ g ∈ pre, g.geometry.type ≠ "Polygon") :
    (runSearch (pre ++ poly :: post) st o).fst
      = some { coordinates := poly.geometry.coordinates } := by
  have hf : (pre ++ poly :: post).find? (fun g => g.geometry.type == "Polygon")
      = some poly := by
    induction pre with
    | nil =>
      simp [List.find?_cons_of_pos, hpoly]
    | cons a l ih =>
      have ha : (a.geometry.type == "Polygon") = false := by
        simpa [beq_eq_false_iff_ne] using hpre a (List.mem_cons_self a l)
      rw [List.cons_append]
      simp only [List.find?, ha]
      exact ih (fun g hg => hpre g (List.mem_cons_of_mem a hg))
  simp [runSearch, hf]

/-- C10 witness: a line string, then a closed square polygon, then a second
(degenerate) polygon: the request issued carries the coordinates of the
square, the first Polygon-typed feature. -/
theorem c10_first_polygon_used_witness :
    polyFeat.geometry.type = "Polygon" ∧
    (∀ g ∈ [lineFeat], g.geometry.type ≠ "Polygon") ∧
    (runSearch ([lineFeat] ++ polyFeat :: [openPolyFeat]) []
        (Except.ok { items := some [] })).fst
      = some { coordinates := polyFeat.geometry.coordinates } :=
  ⟨rfl, by decide,
    c10_first_polygon_used [lineFeat] [openPolyFeat] polyFeat []
      (Except.ok { items := some [] }) rfl (by decide)⟩

end MapView
